import Mathlib

/-!
# CUZ-BACKEND: the account ledger of `src/controllers/bankControllers.js`

A shallow embedding of the three ledger handlers of the controller
(`exports.deposit`, `exports.transfer`, `exports.transactions`) over an
explicit model of the two MongoDB collections they touch.

Modelling decisions:

* A collection is a list of documents in insertion order.  `findOne` returns
  the first matching document, `save` of a loaded document rewrites the
  balance of the stored document with the same `_id` (mongoose sends a
  `$set` of the modified path, filtered by `_id`).
* Amounts and balances are JavaScript Numbers (`JsNumber`): IEEE 754 binary64
  values.  A finite value is carried as the rational it denotes; `+`, `-` and
  `<` are the IEEE operations, with sums rounded to the nearest binary64 value,
  ties to even, and overflow to an infinity.  The two zeros are one value: the
  handlers never divide and never print the sign of a zero.
* Mongoose casts a value assigned to a `Number` path and refuses `NaN`; the
  document is then invalid and its `save()` rejects before any write.
* `Date.now` and the fresh `ObjectId` of a new transaction are inputs of each
  operation (`now`, `oid`).
* A persistence step (`save`) may throw: the step that throws, and the
  message of the exception, are given by a `Fault`.  The handlers' `try/catch`
  turns the exception into a 400 response and does not undo earlier writes.
* Holder names and e-mails (the `User` model) and the formatted date strings
  of the history are display-only and are left out.
-/

namespace Bank

/-! ## JavaScript Numbers -/

/-- A JavaScript Number: a finite value (as the rational it denotes), one of the
two infinities, or NaN.  Every finite binary64 value is such a rational; the
operations below are the IEEE 754 ones on binary64 values (a statement over all
rationals covers them). -/
inductive JsNumber where
  | finite (q : ℚ)
  | posInf
  | negInf
  | nan
  deriving DecidableEq

/-- The position of the highest set bit of `n` (0 for `n < 2`), with `fuel` at
least `n`. -/
def log2Fuel : ℕ → ℕ → ℕ
  | 0, _ => 0
  | fuel + 1, n => if n < 2 then 0 else log2Fuel fuel (n / 2) + 1

/-- The binary exponent of the last place of the binary64 value nearest to the
positive rational `n / d`: with `e` the binary exponent of `n / d` (the largest
`e` with `2 ^ e ≤ n / d`), not below -1022, it is `e - 52`. -/
def quantumExponent (n d : ℕ) : Int :=
  let k : Int := (log2Fuel n n : Int) - (log2Fuel d d : Int)
  let e : Int := if d * 2 ^ k.toNat ≤ n * 2 ^ (-k).toNat then k else k - 1
  max e (-1022) - 52

/-- The integer nearest to `n / d / 2 ^ s`, ties to even. -/
def roundedMantissa (n d : ℕ) (s : Int) : ℕ :=
  let N : ℕ := n * 2 ^ (-s).toNat
  let D : ℕ := d * 2 ^ s.toNat
  let f : ℕ := N / D
  let rem : ℕ := N % D
  if 2 * rem < D then f else if D < 2 * rem then f + 1 else if f % 2 = 0 then f else f + 1

/-- The rational `m * 2 ^ s`. -/
def dyadic (m : ℕ) (s : Int) : ℚ :=
  ((m * 2 ^ s.toNat : ℕ) : ℚ) / ((2 ^ (-s).toNat : ℕ) : ℚ)

/-- Whether `m * 2 ^ s` is beyond the largest finite binary64 value, that is at
least `2 ^ 1024`. -/
def overflows (m : ℕ) (s : Int) : Bool :=
  decide (2 ^ (1024 + (-s).toNat) ≤ m * 2 ^ s.toNat)

/-- The binary64 value nearest to the positive rational `n / d`, ties to even;
`none` when it is beyond the largest finite value. -/
def roundMagnitude (n d : ℕ) : Option ℚ :=
  if overflows (roundedMantissa n d (quantumExponent n d)) (quantumExponent n d) then none
  else some (dyadic (roundedMantissa n d (quantumExponent n d)) (quantumExponent n d))

/-- The Number that an exact result `q` becomes: round to nearest binary64
value, ties to even, overflow to an infinity. -/
def round64 (q : ℚ) : JsNumber :=
  if q = 0 then .finite 0
  else
    match roundMagnitude q.num.natAbs q.den with
    | none => if 0 < q then .posInf else .negInf
    | some r => .finite (if 0 < q then r else -r)

/-- The unary minus of JavaScript. -/
def JsNumber.neg : JsNumber → JsNumber
  | .finite q => .finite (-q)
  | .posInf => .negInf
  | .negInf => .posInf
  | .nan => .nan

/-- The operator `+` of JavaScript on two Numbers. -/
def JsNumber.add : JsNumber → JsNumber → JsNumber
  | .finite a, .finite b => round64 (a + b)
  | .finite _, .posInf => .posInf
  | .finite _, .negInf => .negInf
  | .posInf, .finite _ => .posInf
  | .posInf, .posInf => .posInf
  | .negInf, .finite _ => .negInf
  | .negInf, .negInf => .negInf
  | _, _ => .nan

/-- The operator `-` of JavaScript on two Numbers. -/
def JsNumber.sub (a b : JsNumber) : JsNumber :=
  a.add b.neg

/-- The operator `<` of JavaScript on two Numbers. -/
def JsNumber.lt : JsNumber → JsNumber → Bool
  | .finite a, .finite b => decide (a < b)
  | .finite _, .posInf => true
  | .negInf, .finite _ => true
  | .negInf, .posInf => true
  | _, _ => false

/-- The operator `<=` of JavaScript on two Numbers. -/
def JsNumber.le : JsNumber → JsNumber → Bool
  | .finite a, .finite b => decide (a ≤ b)
  | .finite _, .posInf => true
  | .negInf, .finite _ => true
  | .negInf, .posInf => true
  | .posInf, .posInf => true
  | .negInf, .negInf => true
  | _, _ => false

/-- Whether the Number is NaN. -/
def JsNumber.isNaN : JsNumber → Bool
  | .nan => true
  | _ => false

/-- Whether the Number is finite (`Number.isFinite`). -/
def JsNumber.isFinite : JsNumber → Bool
  | .finite _ => true
  | _ => false

/-- The exact sum of a list of Numbers, when all of them are finite. -/
def exactSum : List JsNumber → Option ℚ
  | [] => some 0
  | .finite q :: l => (exactSum l).map (fun t => q + t)
  | _ :: _ => none

/-! ## Data model -/

/-- Modelled from the spec: the `Account` model (`src/models/Account.js` is not
part of the sources): an account has an identity, an account number, a balance
and an account type.  `_id` is the MongoDB document id; the balance is a
`Number` path, like `amount` in the transaction schema. -/
structure Account where
  _id : Nat
  accountNumber : String
  balance : JsNumber
  type : String
  deriving DecidableEq

/-- The enum of `type` in `src/models/Transaction.js`. -/
inductive TxType where
  | deposit
  | transfer
  deriving DecidableEq

/-- The schema of `src/models/Transaction.js`; `from_` and `to_` are the fields `from` and `to`. -/
structure Transaction where
  _id : Nat
  from_ : Option Nat
  to_ : Option Nat
  amount : JsNumber
  type : TxType
  description : Option String
  createdAt : Nat
  deriving DecidableEq

/-- The two collections. -/
structure Store where
  accounts : List Account
  transactions : List Transaction
  deriving DecidableEq

/-- A persistence step that throws: its position among the `save` calls of the
handler (0 is the first) and the message of the exception. -/
structure Fault where
  step : Nat
  message : String
  deriving DecidableEq

/-! ## Store primitives -/

/-- The query `Account.findOne({ accountNumber })`: the first match, if any. -/
def findOne (accounts : List Account) (accountNumber : String) : Option Account :=
  accounts.find? (fun a => decide (a.accountNumber = accountNumber))

/-- The write of `account.save()`: the stored document with the id of `doc`
gets the balance of `doc`. -/
def writeBalance (accounts : List Account) (doc : Account) : List Account :=
  accounts.map (fun a => if a._id = doc._id then { a with balance := doc.balance } else a)

/-- Whether the `k`-th persistence step throws, and with which message. -/
def throwsAt (fault : Option Fault) (k : Nat) : Option String :=
  match fault with
  | some f => if f.step = k then some f.message else none
  | none => none

/-- The message of the validation error of an account whose balance was
assigned NaN (the cast of the `Number` path failed). -/
def accountCastMessage : String :=
  "Account validation failed: balance: Cast to Number failed for value \"NaN\" (type number) at path \"balance\""

/-- The message of the validation error of a transaction whose amount is NaN. -/
def transactionCastMessage : String :=
  "Transaction validation failed: amount: Cast to Number failed for value \"NaN\" (type number) at path \"amount\""

/-- The call `await account.save()` as the `k`-th persistence step.  A document
whose balance was assigned NaN is invalid: validation rejects before the write. -/
def saveAccount (fault : Option Fault) (k : Nat) (s : Store) (doc : Account) :
    Except String Store :=
  if doc.balance.isNaN then .error accountCastMessage
  else
    match throwsAt fault k with
    | some m => .error m
    | none => .ok { s with accounts := writeBalance s.accounts doc }

/-- The call `await transaction.save()` as the `k`-th persistence step.  A
transaction whose amount is NaN is invalid: validation rejects before the write. -/
def saveTransaction (fault : Option Fault) (k : Nat) (s : Store) (t : Transaction) :
    Except String Store :=
  if t.amount.isNaN then .error transactionCastMessage
  else
    match throwsAt fault k with
    | some m => .error m
    | none => .ok { s with transactions := s.transactions ++ [t] }

/-! ## Responses -/

/-- What a handler sends: the object given to `res.json` (as built, before it is
serialised) or the error of `res.status(status).json({ error })`. -/
inductive Response (α : Type) where
  | ok (body : α)
  | error (status : Nat) (error : String)
  deriving DecidableEq

/-- Whether the response is an error response. -/
def Response.isError {α : Type} : Response α → Bool
  | .ok _ => false
  | .error _ _ => true

/-- The `transaction` object of the deposit response. -/
structure DepositTransactionView where
  to_ : Option Nat
  amount : JsNumber
  type : TxType
  description : Option String
  createdAt : Nat
  deriving DecidableEq

/-- The `account` object of the deposit response. -/
structure DepositAccountView where
  accountNumber : String
  balance : JsNumber
  type : String
  deriving DecidableEq

/-- The body of a successful deposit response. -/
structure DepositReply where
  transaction : DepositTransactionView
  account : DepositAccountView
  deriving DecidableEq

/-- The `transfer` object of the transfer response. -/
structure TransferSummary where
  amount : JsNumber
  description : String
  deriving DecidableEq

/-- The `fromAccount` object of the transfer response. -/
structure FromAccountView where
  accountNumber : String
  remainingBalance : JsNumber
  accountType : String
  deriving DecidableEq

/-- The `toAccount` object of the transfer response. -/
structure ToAccountView where
  accountNumber : String
  newBalance : JsNumber
  accountType : String
  deriving DecidableEq

/-- The `transaction` object of the transfer response; `from_` and `to_` are the
account numbers of the two ends. -/
structure TransferTransactionView where
  transactionId : Nat
  from_ : String
  to_ : String
  amount : JsNumber
  type : TxType
  description : Option String
  createdAt : Nat
  deriving DecidableEq

/-- The body of a successful transfer response. -/
structure TransferReply where
  transfer : TransferSummary
  fromAccount : FromAccountView
  toAccount : ToAccountView
  transaction : TransferTransactionView
  deriving DecidableEq

/-! ## The ledger engine -/

/-- The handler `exports.deposit`: the response and the store it leaves. -/
def deposit (fault : Option Fault) (s : Store) (oid now : Nat)
    (accountNumber : String) (amount : JsNumber) (description : Option String) :
    Response DepositReply × Store :=
  match findOne s.accounts accountNumber with
  | none => (.error 404 "Account not found", s)
  | some found =>
    let account : Account := { found with balance := found.balance.add amount }
    match saveAccount fault 0 s account with
    | .error m => (.error 400 m, s)
    | .ok s1 =>
      let transaction : Transaction :=
        { _id := oid, from_ := none, to_ := some account._id, amount := amount,
          type := .deposit, description := description, createdAt := now }
      match saveTransaction fault 1 s1 transaction with
      | .error m => (.error 400 m, s1)
      | .ok s2 =>
        (.ok { transaction :=
                { to_ := transaction.to_, amount := transaction.amount,
                  type := transaction.type, description := transaction.description,
                  createdAt := transaction.createdAt },
               account :=
                { accountNumber := account.accountNumber, balance := account.balance,
                  type := account.type } }, s2)

/-- The expression `description || "Money transfer"`. -/
def descriptionOrDefault (description : Option String) : String :=
  match description with
  | none => "Money transfer"
  | some d => if d = "" then "Money transfer" else d

/-- The handler `exports.transfer`: the response and the store it leaves.  The
two `findOne` calls load two documents, also when both account numbers are the
same; each is changed and saved on its own. -/
def transfer (fault : Option Fault) (s : Store) (oid now : Nat)
    (fromAccountNumber toAccountNumber : String) (amount : JsNumber)
    (description : Option String) : Response TransferReply × Store :=
  match findOne s.accounts fromAccountNumber, findOne s.accounts toAccountNumber with
  | some foundFrom, some foundTo =>
    if foundFrom.balance.lt amount then (.error 400 "Insufficient funds", s)
    else
      let fromAccount : Account := { foundFrom with balance := foundFrom.balance.sub amount }
      let toAccount : Account := { foundTo with balance := foundTo.balance.add amount }
      match saveAccount fault 0 s fromAccount with
      | .error m => (.error 400 m, s)
      | .ok s1 =>
        match saveAccount fault 1 s1 toAccount with
        | .error m => (.error 400 m, s1)
        | .ok s2 =>
          let transaction : Transaction :=
            { _id := oid, from_ := some fromAccount._id, to_ := some toAccount._id,
              amount := amount, type := .transfer, description := description,
              createdAt := now }
          match saveTransaction fault 2 s2 transaction with
          | .error m => (.error 400 m, s2)
          | .ok s3 =>
            (.ok { transfer :=
                    { amount := amount, description := descriptionOrDefault description },
                   fromAccount :=
                    { accountNumber := fromAccount.accountNumber,
                      remainingBalance := fromAccount.balance,
                      accountType := fromAccount.type },
                   toAccount :=
                    { accountNumber := toAccount.accountNumber,
                      newBalance := toAccount.balance,
                      accountType := toAccount.type },
                   transaction :=
                    { transactionId := transaction._id,
                      from_ := fromAccount.accountNumber,
                      to_ := toAccount.accountNumber,
                      amount := transaction.amount, type := transaction.type,
                      description := transaction.description,
                      createdAt := transaction.createdAt } }, s3)
  | _, _ => (.error 404 "Account not found", s)

/-- The exact sum of the balances of all accounts of the store, when all of
them are finite. -/
def totalBalance (accounts : List Account) : Option ℚ :=
  exactSum (accounts.map (fun a => a.balance))

/-- The stored balance of the account with the given id, if there is one. -/
def balanceOf (accounts : List Account) (id : Nat) : Option JsNumber :=
  (accounts.find? (fun a => decide (a._id = id))).map (fun a => a.balance)

/-- Document ids are unique within the accounts collection. -/
def UniqueIds (accounts : List Account) : Prop :=
  (accounts.map (fun a => a._id)).Nodup

instance (accounts : List Account) : Decidable (UniqueIds accounts) := by
  unfold UniqueIds; infer_instance

/-! ## The history reporter -/

/-- The values of `direction` in a formatted transaction. -/
inductive Direction where
  | incoming
  | outgoing
  | unknown
  deriving DecidableEq

/-- The template string chosen for `transferSummary`, with the amount and the
account number it is filled with (the holder name is left out). -/
inductive SummaryText where
  | transferred (amount : JsNumber) (accountNumber : String)
  | received (amount : JsNumber) (accountNumber : String)
  | depositOf (amount : JsNumber)
  deriving DecidableEq

/-- An element of `formattedTransactions`; `from_` and `to_` are the account
numbers of the populated references (`null` when the reference is absent or
does not resolve). -/
structure FormattedTransaction where
  transactionId : Nat
  type : TxType
  amount : JsNumber
  description : Option String
  date : Nat
  direction : Direction
  transferSummary : Option SummaryText
  from_ : Option String
  to_ : Option String
  status : String
  deriving DecidableEq

/-- The query `Transaction.find` with the `$or` filter on `from` and `to`, sorted by
`createdAt` descending (a stable sort: the database leaves the order of equal
timestamps open). -/
def find (transactions : List Transaction) (id : Nat) : List Transaction :=
  List.insertionSort (fun a b : Transaction => b.createdAt ≤ a.createdAt)
    (transactions.filter (fun t => decide (t.from_ = some id ∨ t.to_ = some id)))

/-- The effect of `populate` on a reference: the referenced account document, or
`null` when the reference is absent or no account has that id. -/
def populate (accounts : List Account) (ref : Option Nat) : Option Account :=
  match ref with
  | none => none
  | some id => accounts.find? (fun a => decide (a._id = id))

/-- The test `ref && ref._id.toString() === account._id.toString()` on a
populated reference. -/
def refersTo (populated : Option Account) (account : Account) : Bool :=
  match populated with
  | none => false
  | some a => decide (a._id = account._id)

/-- The expression `ref?.accountNumber || "Unknown"` on a populated reference. -/
def accountNumberOrUnknown (populated : Option Account) : String :=
  match populated with
  | none => "Unknown"
  | some a => if a.accountNumber = "" then "Unknown" else a.accountNumber

/-- The callback of `transactions.map` in `exports.transactions`. -/
def format (accounts : List Account) (account : Account) (transaction : Transaction) :
    FormattedTransaction :=
  let from_ := populate accounts transaction.from_
  let to_ := populate accounts transaction.to_
  let isIncoming := refersTo to_ account
  let isOutgoing := refersTo from_ account
  { transactionId := transaction._id,
    type := transaction.type,
    amount := transaction.amount,
    description := transaction.description,
    date := transaction.createdAt,
    direction := if isIncoming then .incoming else if isOutgoing then .outgoing else .unknown,
    transferSummary :=
      if isOutgoing && decide (transaction.type = .transfer) then
        some (.transferred transaction.amount (accountNumberOrUnknown to_))
      else if isIncoming && decide (transaction.type = .transfer) then
        some (.received transaction.amount (accountNumberOrUnknown from_))
      else if transaction.type = .deposit then some (.depositOf transaction.amount)
      else none,
    from_ := from_.map (fun a => a.accountNumber),
    to_ := to_.map (fun a => a.accountNumber),
    status := "completed" }

/-- The bucket `outgoingTransfers`. -/
def outgoingTransfers (formattedTransactions : List FormattedTransaction) :
    List FormattedTransaction :=
  formattedTransactions.filter
    (fun t => decide (t.direction = .outgoing) && decide (t.type = .transfer))

/-- The bucket `incomingTransactions`. -/
def incomingTransactions (formattedTransactions : List FormattedTransaction) :
    List FormattedTransaction :=
  formattedTransactions.filter (fun t => decide (t.direction = .incoming))

/-- The bucket `allOtherTransactions`. -/
def allOtherTransactions (formattedTransactions : List FormattedTransaction) :
    List FormattedTransaction :=
  formattedTransactions.filter
    (fun t => !(decide (t.direction = .outgoing) && decide (t.type = .transfer))
      && decide (t.direction ≠ .incoming))

/-- The expression `list.reduce((sum, t) => sum + t.amount, 0)`. -/
def sumAmounts (list : List FormattedTransaction) : JsNumber :=
  list.foldl (fun sum t => sum.add t.amount) (.finite 0)

/-- The `summary` object of the history response. -/
structure Summary where
  totalTransactions : Nat
  outgoingTransfers : Nat
  incomingTransactions : Nat
  totalAmountSent : JsNumber
  totalAmountReceived : JsNumber
  deriving DecidableEq

/-- The `account` object of the history response. -/
structure HistoryAccountView where
  accountNumber : String
  accountType : String
  currentBalance : JsNumber
  deriving DecidableEq

/-- The body of a successful history response. -/
structure HistoryReply where
  account : HistoryAccountView
  summary : Summary
  outgoingTransfers : List FormattedTransaction
  incomingTransactions : List FormattedTransaction
  allTransactions : List FormattedTransaction
  deriving DecidableEq

/-- The summary computed from the formatted transactions. -/
def summarize (formattedTransactions : List FormattedTransaction) : Summary :=
  { totalTransactions := formattedTransactions.length,
    outgoingTransfers := (outgoingTransfers formattedTransactions).length,
    incomingTransactions := (incomingTransactions formattedTransactions).length,
    totalAmountSent := sumAmounts (outgoingTransfers formattedTransactions),
    totalAmountReceived := sumAmounts (incomingTransactions formattedTransactions) }

/-- The formatted transactions of an account: the fetched list, mapped. -/
def formattedTransactionsOf (s : Store) (account : Account) : List FormattedTransaction :=
  (find s.transactions account._id).map (format s.accounts account)

/-- The handler `exports.transactions` (the history); it reads the store only. -/
def transactions (s : Store) (accountNumber : String) : Response HistoryReply :=
  match findOne s.accounts accountNumber with
  | none => .error 404 "Account not found"
  | some account =>
    let formattedTransactions := formattedTransactionsOf s account
    .ok { account :=
            { accountNumber := account.accountNumber, accountType := account.type,
              currentBalance := account.balance },
          summary := summarize formattedTransactions,
          outgoingTransfers := outgoingTransfers formattedTransactions,
          incomingTransactions := incomingTransactions formattedTransactions,
          allTransactions := formattedTransactions }

/-! ## Request sequences -/

/-- A request to the ledger engine, with the clock reading and the fresh
transaction id of its execution. -/
inductive Request where
  | deposit (oid now : Nat) (accountNumber : String) (amount : JsNumber)
      (description : Option String)
  | transfer (oid now : Nat) (fromAccountNumber toAccountNumber : String) (amount : JsNumber)
      (description : Option String)
  deriving DecidableEq

/-- The store after one request, without persistence faults. -/
def step (s : Store) : Request → Store
  | .deposit oid now accountNumber amount description =>
    (deposit none s oid now accountNumber amount description).2
  | .transfer oid now fromAccountNumber toAccountNumber amount description =>
    (transfer none s oid now fromAccountNumber toAccountNumber amount description).2

/-- The store after a sequence of requests, run one after the other. -/
def run (s : Store) (requests : List Request) : Store :=
  requests.foldl step s

/-- The balance obtained by replaying the log from zero for the account with the
given id, in exact arithmetic: the amounts credited to it minus the amounts
debited from it (when all these amounts are finite). -/
def replay (transactions : List Transaction) (id : Nat) : Option ℚ :=
  match exactSum ((transactions.filter (fun t => decide (t.to_ = some id))).map
      (fun t => t.amount)),
    exactSum ((transactions.filter (fun t => decide (t.from_ = some id))).map
      (fun t => t.amount)) with
  | some credited, some debited => some (credited - debited)
  | _, _ => none

/-- Scenario store: account A with balance 1000, account B with balance 200. -/
def storeAB : Store :=
  { accounts := [⟨1, "SAV-A", .finite 1000, "savings"⟩, ⟨2, "PER-B", .finite 200, "person"⟩],
    transactions := [] }

/-! ## Auxiliary definitions for the statements -/

/-- The transaction a deposit appends. -/
def depositTransaction (oid now : Nat) (account : Account) (amount : JsNumber)
    (description : Option String) : Transaction :=
  { _id := oid, from_ := none, to_ := some account._id, amount := amount,
    type := .deposit, description := description, createdAt := now }

/-- The transaction a transfer appends. -/
def transferTransaction (oid now : Nat) (fromAccount toAccount : Account) (amount : JsNumber)
    (description : Option String) : Transaction :=
  { _id := oid, from_ := some fromAccount._id, to_ := some toAccount._id, amount := amount,
    type := .transfer, description := description, createdAt := now }

/-- Scenario store: account A with balance 1000 only. -/
def storeA : Store :=
  { accounts := [⟨1, "SAV-A", .finite 1000, "savings"⟩], transactions := [] }

/-- Scenario store: account A with balance 1200, account B with balance 500. -/
def storeAB2 : Store :=
  { accounts := [⟨1, "SAV-A", .finite 1200, "savings"⟩, ⟨2, "PER-B", .finite 500, "person"⟩],
    transactions := [⟨10, none, some 1, .finite 500, .deposit, none, 100⟩,
                     ⟨11, some 1, some 2, .finite 300, .transfer, none, 101⟩] }

/-- Scenario store: account A with balance 2^53 = 9007199254740992, account B
with balance 200. -/
def storeBig : Store :=
  { accounts := [⟨1, "SAV-A", .finite 9007199254740992, "savings"⟩,
                 ⟨2, "PER-B", .finite 200, "person"⟩],
    transactions := [] }

/-- The store after `transfer(A, A, 50)` on the store where A holds 1000. -/
def storeSelf : Store :=
  run storeA [.transfer 10 100 "SAV-A" "SAV-A" (.finite 50) none]

/-- The store after scenarios 1 to 3: `deposit(A, 500)`, `transfer(A, B, 300)` and
the rejected `transfer(A, B, 5000)`, from A with 1000 and B with 200. -/
def storeScenario : Store :=
  run storeAB [.deposit 10 100 "SAV-A" (.finite 500) none,
    .transfer 11 101 "SAV-A" "PER-B" (.finite 300) none,
    .transfer 12 102 "SAV-A" "PER-B" (.finite 5000) none]

/-- A store in which every account has balance zero and the log is empty. -/
def storeZero : Store :=
  { accounts := [⟨1, "SAV-A", .finite 0, "savings"⟩, ⟨2, "PER-B", .finite 0, "person"⟩],
    transactions := [] }

/-! ## Lemmas on JavaScript Numbers -/

theorem dyadic_nonneg (m : ℕ) (s : Int) : 0 ≤ dyadic m s :=
  div_nonneg (Nat.cast_nonneg _) (Nat.cast_nonneg _)

theorem roundMagnitude_nonneg {n d : ℕ} {r : ℚ} (h : roundMagnitude n d = some r) : 0 ≤ r := by
  unfold roundMagnitude at h
  split at h
  · cases h
  · injection h with h
    rw [← h]
    exact dyadic_nonneg _ _

theorem round64_ne_nan (q : ℚ) : round64 q ≠ .nan := by
  unfold round64
  split
  · simp
  · split
    · split <;> simp
    · simp

/-- Rounding a value that is at least 0 gives a finite value that is at least 0,
or the positive infinity. -/
theorem round64_nonneg {q : ℚ} (hq : 0 ≤ q) : (JsNumber.finite 0).le (round64 q) = true := by
  unfold round64
  split
  · simp [JsNumber.le]
  · rename_i hne
    have hpos : 0 < q := lt_of_le_of_ne hq (Ne.symm hne)
    split
    · simp [hpos, JsNumber.le]
    · rename_i r hr
      simp [hpos, JsNumber.le, roundMagnitude_nonneg hr]

theorem JsNumber.add_nan_right (a : JsNumber) : a.add .nan = .nan := by
  cases a <;> rfl

theorem JsNumber.add_finite_ne_nan {a : JsNumber} (ha : a ≠ .nan) (q : ℚ) :
    a.add (.finite q) ≠ .nan := by
  cases a with
  | finite p => exact round64_ne_nan _
  | posInf => simp [JsNumber.add]
  | negInf => simp [JsNumber.add]
  | nan => exact absurd rfl ha

theorem JsNumber.sub_finite_ne_nan {a : JsNumber} (ha : a ≠ .nan) (q : ℚ) :
    a.sub (.finite q) ≠ .nan :=
  JsNumber.add_finite_ne_nan ha (-q)

theorem JsNumber.isNaN_eq_false {a : JsNumber} (ha : a ≠ .nan) : a.isNaN = false := by
  cases a <;> simp [JsNumber.isNaN] at ha ⊢

theorem JsNumber.isNaN_eq_true {a : JsNumber} (ha : a = .nan) : a.isNaN = true := by
  subst ha; rfl

/-- The sum of two Numbers that are at least 0 is at least 0. -/
theorem JsNumber.add_nonneg {a b : JsNumber} (ha : (JsNumber.finite 0).le a = true)
    (hb : (JsNumber.finite 0).le b = true) : (JsNumber.finite 0).le (a.add b) = true := by
  cases a <;> cases b <;> simp [JsNumber.le, JsNumber.add] at ha hb ⊢
  exact round64_nonneg (by linarith)

/-- The difference `a - b` of two Numbers that are at least 0, when `a < b` is
false, is at least 0 or NaN. -/
theorem JsNumber.sub_nonneg {a b : JsNumber} (hlt : a.lt b = false)
    (ha : (JsNumber.finite 0).le a = true) (hb : (JsNumber.finite 0).le b = true) :
    a.sub b = .nan ∨ (JsNumber.finite 0).le (a.sub b) = true := by
  cases a <;> cases b <;>
    simp [JsNumber.le, JsNumber.lt, JsNumber.sub, JsNumber.add, JsNumber.neg] at hlt ha hb ⊢
  right
  apply round64_nonneg
  linarith

theorem log2Fuel_spec : ∀ (fuel n : ℕ), 0 < n → n ≤ fuel →
    2 ^ log2Fuel fuel n ≤ n ∧ n < 2 ^ (log2Fuel fuel n + 1) := by
  intro fuel
  induction fuel with
  | zero => intro n h0 h1; omega
  | succ fuel ih =>
    intro n h0 h1
    unfold log2Fuel
    by_cases h2 : n < 2
    · simp only [h2, if_true]
      constructor <;> simp <;> omega
    · simp only [h2, if_false]
      have hhalf := ih (n / 2) (by omega) (by omega)
      constructor
      · calc 2 ^ (log2Fuel fuel (n / 2) + 1) = 2 ^ log2Fuel fuel (n / 2) * 2 := by ring
          _ ≤ (n / 2) * 2 := Nat.mul_le_mul_right 2 hhalf.1
          _ ≤ n := Nat.div_mul_le_self n 2
      · have : n / 2 + 1 ≤ 2 ^ (log2Fuel fuel (n / 2) + 1) := hhalf.2
        calc n < (n / 2 + 1) * 2 := by omega
          _ ≤ 2 ^ (log2Fuel fuel (n / 2) + 1) * 2 := Nat.mul_le_mul_right 2 this
          _ = 2 ^ (log2Fuel fuel (n / 2) + 1 + 1) := by ring

theorem log2Fuel_one : log2Fuel 1 1 = 0 := by decide

/-- An integer of magnitude below 2^53 is a Number: rounding keeps it. -/
theorem roundMagnitude_nat_of_lt {n : ℕ} (h0 : 0 < n) (h : n < 2 ^ 53) :
    roundMagnitude n 1 = some (n : ℚ) := by
  obtain ⟨hlo, hhi⟩ := log2Fuel_spec n n h0 le_rfl
  have hL : log2Fuel n n ≤ 52 := by
    by_contra hc
    have h53 : 53 ≤ log2Fuel n n := by omega
    have : 2 ^ 53 ≤ 2 ^ log2Fuel n n := Nat.pow_le_pow_right (by norm_num) h53
    omega
  obtain ⟨j, hj⟩ : ∃ j, log2Fuel n n + j = 52 := ⟨52 - log2Fuel n n, by omega⟩
  have hq : quantumExponent n 1 = -(j : Int) := by
    unfold quantumExponent
    simp only [log2Fuel_one, Nat.cast_zero, sub_zero, Int.toNat_ofNat, one_mul]
    have hneg : (-(log2Fuel n n : Int)).toNat = 0 := by
      apply Int.toNat_eq_zero.2
      omega
    simp only [hneg, pow_zero, mul_one, hlo, if_true]
    omega
  have hs1 : (-(j : Int)).toNat = 0 := Int.toNat_eq_zero.2 (by omega)
  have hs2 : (- -(j : Int)).toNat = j := by simp
  have hm : roundedMantissa n 1 (-(j : Int)) = n * 2 ^ j := by
    unfold roundedMantissa
    simp [hs1, hs2, Nat.mod_one]
  have hov : overflows (n * 2 ^ j) (-(j : Int)) = false := by
    unfold overflows
    simp only [hs1, hs2, pow_zero, mul_one, decide_eq_false_iff_not, not_le]
    calc n * 2 ^ j < 2 ^ 53 * 2 ^ j := Nat.mul_lt_mul_of_pos_right h (by positivity)
      _ = 2 ^ (53 + j) := by rw [pow_add]
      _ ≤ 2 ^ (1024 + j) := Nat.pow_le_pow_right (by norm_num) (by omega)
  unfold roundMagnitude
  rw [hq, hm, hov]
  simp only [Bool.false_eq_true, if_false, Option.some.injEq]
  unfold dyadic
  simp only [hs1, hs2, pow_zero, mul_one]
  push_cast
  field_simp

/-- An integer of magnitude at most 2^53 is a Number: rounding keeps it. -/
theorem round64_int_of_safe (z : ℤ) (h : |z| ≤ 2 ^ 53) : round64 (z : ℚ) = .finite (z : ℚ) := by
  by_cases hz : z = 0
  · subst hz; simp [round64]
  · by_cases hmax : |z| = 2 ^ 53
    · rcases abs_eq (by positivity : (0 : ℤ) ≤ 2 ^ 53) |>.1 hmax with h1 | h1
      · subst h1; decide!
      · subst h1; decide!
    · have hlt : z.natAbs < 2 ^ 53 := by
        have h1 : |z| < 2 ^ 53 := lt_of_le_of_ne h hmax
        have h2 : (z.natAbs : ℤ) = |z| := Int.natCast_natAbs z
        omega
      have hpos : 0 < z.natAbs := Int.natAbs_pos.2 hz
      have hq : (z : ℚ) ≠ 0 := by exact_mod_cast hz
      unfold round64
      simp only [hq, if_false, Rat.num_intCast, Rat.den_intCast,
        roundMagnitude_nat_of_lt hpos hlt]
      congr 1
      have hcast : ((z.natAbs : ℕ) : ℚ) = ((|z| : ℤ) : ℚ) := Nat.cast_natAbs z
      by_cases hs : 0 < z
      · have : (0 : ℚ) < z := by exact_mod_cast hs
        simp only [this, if_true]
        rw [hcast, abs_of_pos hs]
      · have : ¬ (0 : ℚ) < z := by
          intro hc; apply hs; exact_mod_cast hc
        simp only [this, if_false]
        rw [hcast, abs_of_nonpos (by omega)]
        push_cast
        ring

/-- The sum of two integers is exact when the operands and the sum have magnitude
at most 2^53. -/
theorem JsNumber.add_int_exact (x y : ℤ) (h : |x + y| ≤ 2 ^ 53) :
    (JsNumber.finite (x : ℚ)).add (.finite (y : ℚ)) = .finite ((x : ℚ) + (y : ℚ)) := by
  show round64 ((x : ℚ) + (y : ℚ)) = _
  have := round64_int_of_safe (x + y) h
  push_cast at this
  exact this

/-! ## Lemmas on the store primitives -/

theorem saveAccount_ok (k : Nat) (s : Store) (doc : Account) (h : doc.balance ≠ .nan) :
    saveAccount none k s doc = .ok { s with accounts := writeBalance s.accounts doc } := by
  simp [saveAccount, JsNumber.isNaN_eq_false h, throwsAt]

theorem saveAccount_invalid (fault : Option Fault) (k : Nat) (s : Store) (doc : Account)
    (h : doc.balance = .nan) : saveAccount fault k s doc = .error accountCastMessage := by
  simp [saveAccount, JsNumber.isNaN_eq_true h]

theorem saveAccount_fault (k : Nat) (message : String) (s : Store) (doc : Account)
    (h : doc.balance ≠ .nan) :
    saveAccount (some ⟨k, message⟩) k s doc = .error message := by
  simp [saveAccount, JsNumber.isNaN_eq_false h, throwsAt]

theorem saveAccount_later_fault (j k : Nat) (message : String) (s : Store) (doc : Account)
    (h : doc.balance ≠ .nan) (hjk : j ≠ k) :
    saveAccount (some ⟨j, message⟩) k s doc
      = .ok { s with accounts := writeBalance s.accounts doc } := by
  simp [saveAccount, JsNumber.isNaN_eq_false h, throwsAt, hjk]

theorem saveTransaction_ok (k : Nat) (s : Store) (t : Transaction) (h : t.amount ≠ .nan) :
    saveTransaction none k s t = .ok { s with transactions := s.transactions ++ [t] } := by
  simp [saveTransaction, JsNumber.isNaN_eq_false h, throwsAt]

theorem saveTransaction_fault (k : Nat) (message : String) (s : Store) (t : Transaction)
    (h : t.amount ≠ .nan) :
    saveTransaction (some ⟨k, message⟩) k s t = .error message := by
  simp [saveTransaction, JsNumber.isNaN_eq_false h, throwsAt]

theorem findOne_mem {accounts : List Account} {n : String} {a : Account}
    (h : findOne accounts n = some a) : a ∈ accounts :=
  List.mem_of_find?_eq_some h

theorem findOne_accountNumber {accounts : List Account} {n : String} {a : Account}
    (h : findOne accounts n = some a) : a.accountNumber = n := by
  have := List.find?_some h
  simpa using this

theorem writeBalance_length (accounts : List Account) (doc : Account) :
    (writeBalance accounts doc).length = accounts.length := by
  simp [writeBalance]

/-- A write keeps the ids of the collection. -/
theorem writeBalance_ids (accounts : List Account) (doc : Account) :
    (writeBalance accounts doc).map (fun a => a._id) = accounts.map (fun a => a._id) := by
  induction accounts with
  | nil => rfl
  | cons a l ih =>
    simp only [writeBalance, List.map_cons, List.map_map] at ih ⊢
    rw [ih]
    by_cases h : a._id = doc._id <;> simp [h]

theorem writeBalance_uniqueIds {accounts : List Account} (doc : Account)
    (h : UniqueIds accounts) : UniqueIds (writeBalance accounts doc) := by
  unfold UniqueIds at *
  rw [writeBalance_ids]
  exact h

/-- Looking an account up by number after a write: the same document, with the
written balance when it is the one written. -/
theorem findOne_writeBalance (accounts : List Account) (doc : Account) (n : String) :
    findOne (writeBalance accounts doc) n
      = (findOne accounts n).map
          (fun a => if a._id = doc._id then { a with balance := doc.balance } else a) := by
  induction accounts with
  | nil => rfl
  | cons a l ih =>
    simp only [findOne, writeBalance, List.map_cons] at ih ⊢
    by_cases hid : a._id = doc._id <;> by_cases hn : a.accountNumber = n <;>
      simp [List.find?_cons, hid, hn, ih]

/-- Looking a balance up by id after a write. -/
theorem balanceOf_writeBalance (accounts : List Account) (doc : Account) (id : Nat) :
    balanceOf (writeBalance accounts doc) id
      = if id = doc._id then (balanceOf accounts id).map (fun _ => doc.balance)
        else balanceOf accounts id := by
  induction accounts with
  | nil => simp [balanceOf, writeBalance]
  | cons a l ih =>
    simp only [balanceOf, writeBalance, List.map_cons] at ih ⊢
    by_cases hid : a._id = doc._id <;> by_cases hn : a._id = id <;>
      by_cases hd : id = doc._id <;>
      simp_all [List.find?_cons]

/-- With unique ids, the balance stored under the id of a member is its balance. -/
theorem balanceOf_of_mem {accounts : List Account} (hu : UniqueIds accounts)
    {a : Account} (ha : a ∈ accounts) : balanceOf accounts a._id = some a.balance := by
  induction accounts with
  | nil => cases ha
  | cons b l ih =>
    unfold UniqueIds at hu
    simp only [List.map_cons, List.nodup_cons, List.mem_map, not_exists, not_and] at hu
    rcases List.mem_cons.1 ha with rfl | hl
    · simp [balanceOf, List.find?_cons]
    · have hne : b._id ≠ a._id := fun h => hu.1 a hl h.symm
      have := ih hu.2 hl
      simp only [balanceOf] at this ⊢
      simp [List.find?_cons, hne, this]

/-- With unique ids, two members with the same id are the same document. -/
theorem eq_of_id_eq {accounts : List Account} (hu : UniqueIds accounts)
    {a b : Account} (ha : a ∈ accounts) (hb : b ∈ accounts) (h : a._id = b._id) : a = b :=
  List.inj_on_of_nodup_map hu ha hb h

/-- With unique ids, a write of a finite balance to a stored document with a
finite balance changes the exact total by the difference of the two. -/
theorem totalBalance_writeBalance {accounts : List Account} (hu : UniqueIds accounts)
    {a : Account} (ha : a ∈ accounts) (doc : Account) (hid : doc._id = a._id)
    {b b' t : ℚ} (hb : a.balance = .finite b) (hb' : doc.balance = .finite b')
    (ht : totalBalance accounts = some t) :
    totalBalance (writeBalance accounts doc) = some (t - b + b') := by
  induction accounts generalizing t with
  | nil => cases ha
  | cons c l ih =>
    unfold UniqueIds at hu
    simp only [List.map_cons, List.nodup_cons, List.mem_map, not_exists, not_and] at hu
    rcases List.mem_cons.1 ha with rfl | hl
    · have hrest : writeBalance l doc = l := by
        unfold writeBalance
        conv_rhs => rw [← List.map_id l]
        apply List.map_congr_left
        intro c hc
        have : c._id ≠ doc._id := fun h => hu.1 c hc (h.trans hid)
        simp [this]
      have hw : writeBalance (a :: l) doc
          = { a with balance := doc.balance } :: writeBalance l doc := by
        simp [writeBalance, hid]
      rw [hw, hrest]
      simp only [totalBalance, List.map_cons, hb, hb', exactSum] at ht ⊢
      cases hl : exactSum (l.map (fun a => a.balance)) with
      | none => simp [hl] at ht
      | some u =>
        simp only [hl, Option.map_some', Option.some.injEq] at ht ⊢
        rw [← ht]; ring
    · have hne : c._id ≠ doc._id := fun h => hu.1 a hl (h.trans hid).symm
      have hw : writeBalance (c :: l) doc = c :: writeBalance l doc := by
        simp [writeBalance, hne]
      rw [hw]
      simp only [totalBalance, List.map_cons] at ht ⊢
      cases hc : c.balance with
      | finite q =>
        simp only [hc, exactSum] at ht ⊢
        cases hl' : exactSum (l.map (fun a => a.balance)) with
        | none => simp [hl'] at ht
        | some u =>
          simp only [hl', Option.map_some', Option.some.injEq] at ht
          have := ih hu.2 hl hl'
          simp only [totalBalance] at this
          simp only [this, Option.map_some', Option.some.injEq]
          rw [← ht]; ring
      | posInf => simp [hc, exactSum] at ht
      | negInf => simp [hc, exactSum] at ht
      | nan => simp [hc, exactSum] at ht

theorem writeBalance_nonneg {accounts : List Account} (doc : Account)
    (h : ∀ a ∈ accounts, (JsNumber.finite 0).le a.balance = true)
    (hd : (JsNumber.finite 0).le doc.balance = true) :
    ∀ a ∈ writeBalance accounts doc, (JsNumber.finite 0).le a.balance = true := by
  intro a ha
  unfold writeBalance at ha
  obtain ⟨b, hb, rfl⟩ := List.mem_map.1 ha
  by_cases hid : b._id = doc._id
  · simpa [hid] using hd
  · simpa [hid] using h b hb

/-! ## The handlers without persistence faults, case by case -/

theorem deposit_notFound (fault : Option Fault) (s : Store) (oid now : Nat) (n : String)
    (amount : JsNumber) (d : Option String) (h : findOne s.accounts n = none) :
    deposit fault s oid now n amount d = (.error 404 "Account not found", s) := by
  simp [deposit, h]

theorem deposit_invalid (fault : Option Fault) (s : Store) (oid now : Nat) (n : String)
    (amount : JsNumber) (d : Option String) (account : Account)
    (h : findOne s.accounts n = some account) (hnan : account.balance.add amount = .nan) :
    deposit fault s oid now n amount d = (.error 400 accountCastMessage, s) := by
  simp [deposit, h, saveAccount_invalid, hnan]

theorem deposit_found (s : Store) (oid now : Nat) (n : String) (amount : JsNumber)
    (d : Option String) (account : Account) (h : findOne s.accounts n = some account)
    (hnan : account.balance.add amount ≠ .nan) :
    deposit none s oid now n amount d
      = (.ok { transaction :=
                { to_ := some account._id, amount := amount, type := .deposit,
                  description := d, createdAt := now },
               account :=
                { accountNumber := account.accountNumber,
                  balance := account.balance.add amount, type := account.type } },
         { accounts :=
             writeBalance s.accounts { account with balance := account.balance.add amount },
           transactions := s.transactions ++ [depositTransaction oid now account amount d] }) := by
  have hamount : amount ≠ .nan := by
    intro h0; apply hnan; rw [h0]; exact JsNumber.add_nan_right _
  simp [deposit, h, saveAccount_ok, saveTransaction_ok, hnan, hamount, depositTransaction]

theorem transfer_notFound (fault : Option Fault) (s : Store) (oid now : Nat) (nf nt : String)
    (amount : JsNumber) (d : Option String)
    (h : findOne s.accounts nf = none ∨ findOne s.accounts nt = none) :
    transfer fault s oid now nf nt amount d = (.error 404 "Account not found", s) := by
  unfold transfer
  rcases h with h | h
  · simp [h]
  · cases hf : findOne s.accounts nf <;> simp [h]

theorem transfer_insufficient (fault : Option Fault) (s : Store) (oid now : Nat)
    (nf nt : String) (amount : JsNumber)
    (d : Option String) (af at_ : Account) (hf : findOne s.accounts nf = some af)
    (ht : findOne s.accounts nt = some at_) (hlt : af.balance.lt amount = true) :
    transfer fault s oid now nf nt amount d = (.error 400 "Insufficient funds", s) := by
  simp [transfer, hf, ht, hlt]

theorem transfer_invalid_from (fault : Option Fault) (s : Store) (oid now : Nat)
    (nf nt : String) (amount : JsNumber)
    (d : Option String) (af at_ : Account) (hf : findOne s.accounts nf = some af)
    (ht : findOne s.accounts nt = some at_) (hge : af.balance.lt amount = false)
    (hnan : af.balance.sub amount = .nan) :
    transfer fault s oid now nf nt amount d = (.error 400 accountCastMessage, s) := by
  simp [transfer, hf, ht, hge, saveAccount_invalid, hnan]

theorem transfer_invalid_to (s : Store) (oid now : Nat)
    (nf nt : String) (amount : JsNumber)
    (d : Option String) (af at_ : Account) (hf : findOne s.accounts nf = some af)
    (ht : findOne s.accounts nt = some at_) (hge : af.balance.lt amount = false)
    (hfrom : af.balance.sub amount ≠ .nan) (hnan : at_.balance.add amount = .nan) :
    transfer none s oid now nf nt amount d
      = (.error 400 accountCastMessage,
          { accounts := writeBalance s.accounts { af with balance := af.balance.sub amount },
            transactions := s.transactions }) := by
  simp [transfer, hf, ht, hge, saveAccount_ok, saveAccount_invalid, hfrom, hnan]

theorem transfer_found (s : Store) (oid now : Nat) (nf nt : String) (amount : JsNumber)
    (d : Option String) (af at_ : Account) (hf : findOne s.accounts nf = some af)
    (ht : findOne s.accounts nt = some at_) (hge : af.balance.lt amount = false)
    (hfrom : af.balance.sub amount ≠ .nan) (hto : at_.balance.add amount ≠ .nan) :
    transfer none s oid now nf nt amount d
      = (.ok { transfer := { amount := amount, description := descriptionOrDefault d },
               fromAccount :=
                { accountNumber := af.accountNumber, remainingBalance := af.balance.sub amount,
                  accountType := af.type },
               toAccount :=
                { accountNumber := at_.accountNumber, newBalance := at_.balance.add amount,
                  accountType := at_.type },
               transaction :=
                { transactionId := oid, from_ := af.accountNumber, to_ := at_.accountNumber,
                  amount := amount, type := .transfer, description := d, createdAt := now } },
         { accounts :=
             writeBalance
               (writeBalance s.accounts { af with balance := af.balance.sub amount })
               { at_ with balance := at_.balance.add amount },
           transactions := s.transactions ++ [transferTransaction oid now af at_ amount d] }) := by
  have hamount : amount ≠ .nan := by
    intro h0; apply hto; rw [h0]; exact JsNumber.add_nan_right _
  simp [transfer, hf, ht, hge, saveAccount_ok, saveTransaction_ok, hfrom, hto, hamount,
    transferTransaction]

/-! ## Deposit -/

/-- C4, as stated, fails: on a store where A holds 2^53 = 9007199254740992, the
deposit of 1 to A succeeds, but the stored balance of A stays 2^53 (the sum is
rounded to the nearest Number) and the total over all accounts does not grow. -/
theorem deposit_rounds_large_balance :
    ¬ ((deposit none storeBig 10 100 "SAV-A" (.finite 1) none).1.isError = false →
        balanceOf (deposit none storeBig 10 100 "SAV-A" (.finite 1) none).2.accounts 1
            = some (.finite (9007199254740992 + 1))
          ∧ totalBalance (deposit none storeBig 10 100 "SAV-A" (.finite 1) none).2.accounts
            = (totalBalance storeBig.accounts).map (fun t => t + 1))
      ∧ balanceOf (deposit none storeBig 10 100 "SAV-A" (.finite 1) none).2.accounts 1
          = some (.finite 9007199254740992) := by
  decide!

/-- C4, amended: a deposit of a finite amount `a > 0` to an existing account
whose stored balance is not NaN succeeds; the account's stored balance becomes
the JavaScript Number sum of its previous balance and `a`, the balance of every
other account is unchanged and no account is added or removed, the log grows by
exactly one entry (type deposit, `to` the account, `from` absent, the given
amount and description), and the returned account view reports the new balance.
When the previous balance is a finite `b` and the Number sum is exact, the new
balance is `b + a` and the exact total over all accounts grows by exactly `a`. -/
theorem deposit_stores_number_sum (s : Store) (oid now : Nat) (accountNumber : String)
    (a : ℚ) (description : Option String) (account : Account)
    (hu : UniqueIds s.accounts)
    (hf : findOne s.accounts accountNumber = some account)
    (hbal : account.balance ≠ .nan) (hpos : 0 < a) :
    (deposit none s oid now accountNumber (.finite a) description).1
        = .ok { transaction :=
                  { to_ := some account._id, amount := .finite a, type := .deposit,
                    description := description, createdAt := now },
                account :=
                  { accountNumber := account.accountNumber,
                    balance := account.balance.add (.finite a), type := account.type } }
      ∧ findOne (deposit none s oid now accountNumber (.finite a) description).2.accounts
          accountNumber = some { account with balance := account.balance.add (.finite a) }
      ∧ balanceOf s.accounts account._id = some account.balance
      ∧ balanceOf (deposit none s oid now accountNumber (.finite a) description).2.accounts
          account._id = some (account.balance.add (.finite a))
      ∧ (∀ id, id ≠ account._id →
          balanceOf (deposit none s oid now accountNumber (.finite a) description).2.accounts id
            = balanceOf s.accounts id)
      ∧ (deposit none s oid now accountNumber (.finite a) description).2.accounts.map
          (fun x => (x._id, x.accountNumber, x.type))
          = s.accounts.map (fun x => (x._id, x.accountNumber, x.type))
      ∧ (deposit none s oid now accountNumber (.finite a) description).2.transactions
          = s.transactions ++
              [{ _id := oid, from_ := none, to_ := some account._id, amount := .finite a,
                 type := .deposit, description := description, createdAt := now }]
      ∧ (∀ b, account.balance = .finite b →
          (JsNumber.finite b).add (.finite a) = .finite (b + a) →
          balanceOf (deposit none s oid now accountNumber (.finite a) description).2.accounts
              account._id = some (.finite (b + a))
            ∧ ∀ t, totalBalance s.accounts = some t →
              totalBalance
                (deposit none s oid now accountNumber (.finite a) description).2.accounts
                = some (t + a)) := by
  have _ := hpos
  have hmem := findOne_mem hf
  have hbalOf := balanceOf_of_mem hu hmem
  have hnan := JsNumber.add_finite_ne_nan hbal a
  rw [deposit_found s oid now accountNumber (.finite a) description account hf hnan]
  refine ⟨rfl, ?_, hbalOf, ?_, ?_, ?_, rfl, ?_⟩
  · simp [findOne_writeBalance, hf]
  · simp [balanceOf_writeBalance, hbalOf]
  · intro id hid
    simp [balanceOf_writeBalance, hid]
  · simp only [writeBalance, List.map_map]
    apply List.map_congr_left
    intro x _
    by_cases h : x._id = account._id <;> simp [h]
  · intro b hb hexact
    have hsum : account.balance.add (.finite a) = .finite (b + a) := by rw [hb]; exact hexact
    constructor
    · simp [balanceOf_writeBalance, hbalOf, hsum]
    · intro t ht
      show totalBalance (writeBalance s.accounts _) = _
      rw [totalBalance_writeBalance hu hmem
        { account with balance := account.balance.add (.finite a) } rfl hb hsum ht]
      congr 1
      ring

/-- Scenario 1 on a store with two accounts: A has balance 1000 and B 200;
`deposit(A, 500)` leaves A at 1500 and B at 200, the total grows from 1200 to
1700, and one deposit transaction is recorded. -/
theorem deposit_stores_number_sum_witness :
    (deposit none storeAB 10 100 "SAV-A" (.finite 500) none).1
        = .ok { transaction := ⟨some 1, .finite 500, .deposit, none, 100⟩,
                account := ⟨"SAV-A", .finite 1500, "savings"⟩ }
      ∧ balanceOf (deposit none storeAB 10 100 "SAV-A" (.finite 500) none).2.accounts 1
          = some (.finite 1500)
      ∧ balanceOf (deposit none storeAB 10 100 "SAV-A" (.finite 500) none).2.accounts 2
          = some (.finite 200)
      ∧ totalBalance (deposit none storeAB 10 100 "SAV-A" (.finite 500) none).2.accounts
          = some 1700
      ∧ (deposit none storeAB 10 100 "SAV-A" (.finite 500) none).2.transactions
          = [⟨10, none, some 1, .finite 500, .deposit, none, 100⟩] := by
  have h := deposit_stores_number_sum storeAB 10 100 "SAV-A" 500 none
    ⟨1, "SAV-A", .finite 1000, "savings"⟩ (by decide!) (by decide!) (by simp) (by decide!)
  have hexact := h.2.2.2.2.2.2.2 1000 rfl (by decide!)
  refine ⟨?_, ?_, ?_, ?_, h.2.2.2.2.2.2.1⟩
  · rw [h.1]; decide!
  · rw [hexact.1]; decide!
  · rw [h.2.2.2.2.1 2 (by decide)]; decide!
  · rw [hexact.2 1200 (by decide!)]; decide!

/-! ## Transfer -/

/-- C3: when both accounts exist and the source balance is strictly less than
the amount, the transfer fails with status 400 and the error "Insufficient
funds", and it leaves the whole store as it was: the balance of the source, of
the destination and of every other account, and the transaction log. -/
theorem transfer_insufficient_funds (s : Store) (oid now : Nat)
    (fromAccountNumber toAccountNumber : String) (amount : JsNumber)
    (description : Option String) (fromAccount toAccount : Account)
    (hf : findOne s.accounts fromAccountNumber = some fromAccount)
    (ht : findOne s.accounts toAccountNumber = some toAccount)
    (hlt : fromAccount.balance.lt amount = true) :
    (transfer none s oid now fromAccountNumber toAccountNumber amount description).1
        = .error 400 "Insufficient funds"
      ∧ (transfer none s oid now fromAccountNumber toAccountNumber amount description).2.accounts
          = s.accounts
      ∧ (transfer none s oid now fromAccountNumber toAccountNumber amount description).2.transactions
          = s.transactions := by
  rw [transfer_insufficient none s oid now fromAccountNumber toAccountNumber amount description
    fromAccount toAccount hf ht hlt]
  exact ⟨rfl, rfl, rfl⟩

/-- Scenario 3: A has balance 1200; `transfer(A, B, 5000)` fails with
"Insufficient funds" and changes nothing. -/
theorem transfer_insufficient_funds_witness :
    (transfer none storeAB2 12 102 "SAV-A" "PER-B" (.finite 5000) none).1
        = .error 400 "Insufficient funds"
      ∧ (transfer none storeAB2 12 102 "SAV-A" "PER-B" (.finite 5000) none).2.accounts
          = storeAB2.accounts
      ∧ (transfer none storeAB2 12 102 "SAV-A" "PER-B" (.finite 5000) none).2.transactions
          = storeAB2.transactions :=
  transfer_insufficient_funds storeAB2 12 102 "SAV-A" "PER-B" (.finite 5000) none
    ⟨1, "SAV-A", .finite 1200, "savings"⟩ ⟨2, "PER-B", .finite 500, "person"⟩
    (by decide!) (by decide!) (by decide!)

/-- A successful transfer between two different documents stores the Number
difference in the source and the Number sum in the destination and leaves every
other balance alone. -/
theorem transfer_between_distinct (s : Store) (oid now : Nat)
    (fromAccountNumber toAccountNumber : String) (amount : JsNumber)
    (description : Option String) (fromAccount toAccount : Account)
    (hu : UniqueIds s.accounts)
    (hf : findOne s.accounts fromAccountNumber = some fromAccount)
    (ht : findOne s.accounts toAccountNumber = some toAccount)
    (hne : fromAccount._id ≠ toAccount._id)
    (hge : fromAccount.balance.lt amount = false)
    (hfrom : fromAccount.balance.sub amount ≠ .nan)
    (hto : toAccount.balance.add amount ≠ .nan) :
    balanceOf (transfer none s oid now fromAccountNumber toAccountNumber amount
        description).2.accounts fromAccount._id = some (fromAccount.balance.sub amount)
      ∧ balanceOf (transfer none s oid now fromAccountNumber toAccountNumber amount
        description).2.accounts toAccount._id = some (toAccount.balance.add amount)
      ∧ (∀ id, id ≠ fromAccount._id → id ≠ toAccount._id →
          balanceOf (transfer none s oid now fromAccountNumber toAccountNumber amount
            description).2.accounts id = balanceOf s.accounts id) := by
  have hbf := balanceOf_of_mem hu (findOne_mem hf)
  have hbt := balanceOf_of_mem hu (findOne_mem ht)
  rw [transfer_found s oid now fromAccountNumber toAccountNumber amount description
    fromAccount toAccount hf ht hge hfrom hto]
  refine ⟨?_, ?_, ?_⟩
  · simp [balanceOf_writeBalance, hne, hbf]
  · simp [balanceOf_writeBalance, hne.symm, hbt]
  · intro id h1 h2
    simp [balanceOf_writeBalance, h1, h2]

/-- A successful transfer between two different documents with finite balances
keeps the exact total over all accounts when the Number difference and the
Number sum are exact. -/
theorem transfer_conserves_when_exact (s : Store) (oid now : Nat)
    (fromAccountNumber toAccountNumber : String) (a b1 b2 : ℚ)
    (description : Option String) (fromAccount toAccount : Account)
    (hu : UniqueIds s.accounts)
    (hf : findOne s.accounts fromAccountNumber = some fromAccount)
    (ht : findOne s.accounts toAccountNumber = some toAccount)
    (hne : fromAccount._id ≠ toAccount._id)
    (hb1 : fromAccount.balance = .finite b1) (hb2 : toAccount.balance = .finite b2)
    (hge : fromAccount.balance.lt (.finite a) = false)
    (hsub : (JsNumber.finite b1).sub (.finite a) = .finite (b1 - a))
    (hadd : (JsNumber.finite b2).add (.finite a) = .finite (b2 + a))
    (t : ℚ) (htotal : totalBalance s.accounts = some t) :
    totalBalance (transfer none s oid now fromAccountNumber toAccountNumber (.finite a)
      description).2.accounts = some t := by
  have hmf := findOne_mem hf
  have hmt := findOne_mem ht
  have hfrom : fromAccount.balance.sub (.finite a) = .finite (b1 - a) := by rw [hb1]; exact hsub
  have hto : toAccount.balance.add (.finite a) = .finite (b2 + a) := by rw [hb2]; exact hadd
  rw [transfer_found s oid now fromAccountNumber toAccountNumber (.finite a) description
    fromAccount toAccount hf ht hge (by rw [hfrom]; simp) (by rw [hto]; simp), hfrom, hto]
  show totalBalance (writeBalance (writeBalance s.accounts _) _) = _
  have hu1 := writeBalance_uniqueIds { fromAccount with balance := .finite (b1 - a) } hu
  have hmt1 : toAccount ∈ writeBalance s.accounts
      { fromAccount with balance := .finite (b1 - a) } := by
    unfold writeBalance
    refine List.mem_map.2 ⟨toAccount, hmt, ?_⟩
    simp [hne.symm]
  have h1 := totalBalance_writeBalance hu hmf
    { fromAccount with balance := .finite (b1 - a) } rfl hb1 rfl htotal
  rw [totalBalance_writeBalance hu1 hmt1 { toAccount with balance := .finite (b2 + a) } rfl
    hb2 rfl h1]
  congr 1
  ring

/-- C1, at a self-transfer: `transfer(A, A, 100)` on a store where A holds 1000
succeeds, A's stored balance becomes 1100 (the write of the credited copy
replaces the write of the debited copy), and the total over all accounts
grows from 1000 to 1100. -/
theorem transfer_self_credits_only :
    (transfer none storeA 10 100 "SAV-A" "SAV-A" (.finite 100) none).1.isError = false
      ∧ balanceOf storeA.accounts 1 = some (.finite 1000)
      ∧ balanceOf (transfer none storeA 10 100 "SAV-A" "SAV-A" (.finite 100) none).2.accounts 1
          = some (.finite 1100)
      ∧ totalBalance storeA.accounts = some 1000
      ∧ totalBalance (transfer none storeA 10 100 "SAV-A" "SAV-A" (.finite 100) none).2.accounts
          = some (1000 + 100) := by
  decide!

/-- C2, as stated, fails: `transfer(A, A, 100)` on a store where A holds 1000 is
not rejected; it succeeds, changes A's balance and appends a transaction. -/
theorem transfer_self_not_rejected :
    ¬ ((transfer none storeA 10 100 "SAV-A" "SAV-A" (.finite 100) none).1.isError = true
        ∧ (transfer none storeA 10 100 "SAV-A" "SAV-A" (.finite 100) none).2.accounts
            = storeA.accounts
        ∧ (transfer none storeA 10 100 "SAV-A" "SAV-A" (.finite 100) none).2.transactions
            = storeA.transactions) := by
  decide!

/-- C2, amended: a transfer from an existing account to itself is treated like
any other transfer.  With a balance below the amount it fails with "Insufficient
funds" and leaves balances and log as they were; otherwise, for a finite amount
and a stored balance that is not NaN, it succeeds and appends one transfer
transaction whose `from` and `to` are both the account.  In the remaining cases
(a new balance that is NaN) it either does the same or ends in an error without
appending a transaction. -/
theorem transfer_self_outcome (s : Store) (oid now : Nat) (accountNumber : String)
    (amount : JsNumber) (description : Option String) (account : Account)
    (hf : findOne s.accounts accountNumber = some account) :
    (account.balance.lt amount = true →
        transfer none s oid now accountNumber accountNumber amount description
          = (.error 400 "Insufficient funds", s))
      ∧ (account.balance.lt amount = false → amount.isFinite = true →
          account.balance ≠ .nan →
        (transfer none s oid now accountNumber accountNumber amount description).1.isError
            = false
          ∧ (transfer none s oid now accountNumber accountNumber amount description).2.transactions
            = s.transactions ++
                [{ _id := oid, from_ := some account._id, to_ := some account._id,
                   amount := amount, type := .transfer, description := description,
                   createdAt := now }])
      ∧ (account.balance.lt amount = false →
        ((transfer none s oid now accountNumber accountNumber amount description).1.isError
            = false
          ∧ (transfer none s oid now accountNumber accountNumber amount description).2.transactions
            = s.transactions ++
                [{ _id := oid, from_ := some account._id, to_ := some account._id,
                   amount := amount, type := .transfer, description := description,
                   createdAt := now }])
        ∨ ((transfer none s oid now accountNumber accountNumber amount description).1.isError
            = true
          ∧ (transfer none s oid now accountNumber accountNumber amount description).2.transactions
            = s.transactions)) := by
  refine ⟨?_, ?_, ?_⟩
  · intro hlt
    exact transfer_insufficient none s oid now accountNumber accountNumber amount description
      account account hf hf hlt
  · intro hge hfin hbal
    cases amount with
    | finite q =>
      rw [transfer_found s oid now accountNumber accountNumber (.finite q) description
        account account hf hf hge (JsNumber.sub_finite_ne_nan hbal q)
        (JsNumber.add_finite_ne_nan hbal q)]
      exact ⟨rfl, rfl⟩
    | posInf => cases hfin
    | negInf => cases hfin
    | nan => cases hfin
  · intro hge
    by_cases hfrom : account.balance.sub amount = .nan
    · rw [transfer_invalid_from none s oid now accountNumber accountNumber amount description
        account account hf hf hge hfrom]
      exact Or.inr ⟨rfl, rfl⟩
    · by_cases hto : account.balance.add amount = .nan
      · rw [transfer_invalid_to s oid now accountNumber accountNumber amount description
          account account hf hf hge hfrom hto]
        exact Or.inr ⟨rfl, rfl⟩
      · rw [transfer_found s oid now accountNumber accountNumber amount description
          account account hf hf hge hfrom hto]
        exact Or.inl ⟨rfl, rfl⟩

/-- Both cases of a self-transfer on the scenario store: 5000 is refused for lack
of funds, 100 goes through and is logged. -/
theorem transfer_self_outcome_witness :
    transfer none storeA 10 100 "SAV-A" "SAV-A" (.finite 5000) none
        = (.error 400 "Insufficient funds", storeA)
      ∧ (transfer none storeA 10 100 "SAV-A" "SAV-A" (.finite 100) none).1.isError = false
      ∧ (transfer none storeA 10 100 "SAV-A" "SAV-A" (.finite 100) none).2.transactions
          = [⟨10, some 1, some 1, .finite 100, .transfer, none, 100⟩] :=
  ⟨(transfer_self_outcome storeA 10 100 "SAV-A" (.finite 5000) none
      ⟨1, "SAV-A", .finite 1000, "savings"⟩ (by decide!)).1 (by decide!),
   (transfer_self_outcome storeA 10 100 "SAV-A" (.finite 100) none
      ⟨1, "SAV-A", .finite 1000, "savings"⟩ (by decide!)).2.1 (by decide!) rfl (by simp)⟩

/-- A self-transfer of an infinite amount on an infinite balance passes the funds
check, but the debited balance is NaN: the save of the source is refused by
validation and the store stays as it was. -/
theorem transfer_self_infinite_refused :
    transfer none ⟨[⟨1, "SAV-A", .posInf, "savings"⟩], []⟩ 10 100 "SAV-A" "SAV-A" .posInf none
      = (.error 400 accountCastMessage, ⟨[⟨1, "SAV-A", .posInf, "savings"⟩], []⟩) := by
  decide!

/-! ## Balances and amounts -/

/-- C5, as stated, fails: on a store whose only balance is 1000, a deposit of
-1500 succeeds and leaves the balance at -500. -/
theorem deposit_negative_breaks_nonneg :
    ¬ ((∀ a ∈ storeA.accounts, (JsNumber.finite 0).le a.balance = true) →
        (deposit none storeA 10 100 "SAV-A" (.finite (-1500)) none).1.isError = false →
        ∀ a ∈ (deposit none storeA 10 100 "SAV-A" (.finite (-1500)) none).2.accounts,
          (JsNumber.finite 0).le a.balance = true) := by
  decide!

/-- C5, amended: when every balance is at least 0 and the amount of the request
is at least 0, every balance is at least 0 after a deposit and after a transfer,
whatever the account numbers and whether the request succeeds or is rejected. -/
theorem balances_stay_nonneg (s : Store) (oid now : Nat)
    (accountNumber fromAccountNumber toAccountNumber : String) (amount : JsNumber)
    (description : Option String)
    (h0 : ∀ a ∈ s.accounts, (JsNumber.finite 0).le a.balance = true)
    (hamount : (JsNumber.finite 0).le amount = true) :
    (∀ a ∈ (deposit none s oid now accountNumber amount description).2.accounts,
        (JsNumber.finite 0).le a.balance = true)
      ∧ (∀ a ∈ (transfer none s oid now fromAccountNumber toAccountNumber amount
          description).2.accounts, (JsNumber.finite 0).le a.balance = true) := by
  have hle_ne_nan : ∀ x : JsNumber, (JsNumber.finite 0).le x = true → x ≠ .nan := by
    intro x hx h
    rw [h] at hx
    cases hx
  constructor
  · cases hf : findOne s.accounts accountNumber with
    | none => rw [deposit_notFound none s oid now accountNumber amount description hf]; exact h0
    | some account =>
      have hsum := JsNumber.add_nonneg (h0 account (findOne_mem hf)) hamount
      rw [deposit_found s oid now accountNumber amount description account hf
        (hle_ne_nan _ hsum)]
      exact writeBalance_nonneg _ h0 hsum
  · cases hf : findOne s.accounts fromAccountNumber with
    | none =>
      rw [transfer_notFound none s oid now fromAccountNumber toAccountNumber amount description
        (Or.inl hf)]
      exact h0
    | some af =>
      cases ht : findOne s.accounts toAccountNumber with
      | none =>
        rw [transfer_notFound none s oid now fromAccountNumber toAccountNumber amount
          description (Or.inr ht)]
        exact h0
      | some at_ =>
        cases hlt : af.balance.lt amount with
        | true =>
          rw [transfer_insufficient none s oid now fromAccountNumber toAccountNumber amount
            description af at_ hf ht hlt]
          exact h0
        | false =>
          have hto := JsNumber.add_nonneg (h0 at_ (findOne_mem ht)) hamount
          rcases JsNumber.sub_nonneg hlt (h0 af (findOne_mem hf)) hamount with hnan | hfrom
          · rw [transfer_invalid_from none s oid now fromAccountNumber toAccountNumber amount
              description af at_ hf ht hlt hnan]
            exact h0
          · rw [transfer_found s oid now fromAccountNumber toAccountNumber amount
              description af at_ hf ht hlt (hle_ne_nan _ hfrom) (hle_ne_nan _ hto)]
            exact writeBalance_nonneg _ (writeBalance_nonneg _ h0 hfrom) hto

/-- Scenario 2 store: a transfer of 300 from A (1500) to B (200) keeps both
balances at least 0, and so does a deposit of 300 to A. -/
theorem balances_stay_nonneg_witness :
    (∀ a ∈ (deposit none
        ⟨[⟨1, "SAV-A", .finite 1500, "savings"⟩, ⟨2, "PER-B", .finite 200, "person"⟩], []⟩
        10 100 "SAV-A" (.finite 300) none).2.accounts, (JsNumber.finite 0).le a.balance = true)
      ∧ (∀ a ∈ (transfer none
        ⟨[⟨1, "SAV-A", .finite 1500, "savings"⟩, ⟨2, "PER-B", .finite 200, "person"⟩], []⟩
        10 100 "SAV-A" "PER-B" (.finite 300) none).2.accounts,
          (JsNumber.finite 0).le a.balance = true) :=
  balances_stay_nonneg
    ⟨[⟨1, "SAV-A", .finite 1500, "savings"⟩, ⟨2, "PER-B", .finite 200, "person"⟩], []⟩
    10 100 "SAV-A" "SAV-A" "PER-B" (.finite 300) none (by decide!) (by decide!)

/-- C7, as stated, fails: a deposit of -500 to A is not rejected; it lowers A's
balance from 1000 to 500 and appends a transaction of amount -500. -/
theorem deposit_nonpositive_not_rejected :
    ¬ ((deposit none storeA 10 100 "SAV-A" (.finite (-500)) none).1.isError = true
        ∧ (deposit none storeA 10 100 "SAV-A" (.finite (-500)) none).2.accounts
            = storeA.accounts
        ∧ (deposit none storeA 10 100 "SAV-A" (.finite (-500)) none).2.transactions
            = storeA.transactions)
      ∧ (deposit none storeA 10 100 "SAV-A" (.finite (-500)) none).2.accounts
          = [⟨1, "SAV-A", .finite 500, "savings"⟩]
      ∧ (deposit none storeA 10 100 "SAV-A" (.finite (-500)) none).2.transactions
          = [⟨10, none, some 1, .finite (-500), .deposit, none, 100⟩] := by
  decide!

/-- C7, amended: the engine does not validate the amount.  On a store whose
balances are not NaN and for a finite amount `a` that is 0 or negative: a deposit
to an existing account succeeds, stores the Number sum of the balance and `a`
and appends a deposit transaction carrying `a`; a transfer between existing
accounts whose source balance is not below `a` succeeds and appends a transfer
transaction carrying `a`; and a request that is rejected (account not found,
insufficient funds) leaves balances and log as they were. -/
theorem nonpositive_amount_accepted (s : Store) (oid now : Nat)
    (accountNumber fromAccountNumber toAccountNumber : String) (a : ℚ)
    (description : Option String) (hamount : a ≤ 0)
    (hvalid : ∀ x ∈ s.accounts, x.balance ≠ .nan) :
    (∀ account, findOne s.accounts accountNumber = some account →
        (deposit none s oid now accountNumber (.finite a) description).1.isError = false
          ∧ findOne (deposit none s oid now accountNumber (.finite a) description).2.accounts
              accountNumber = some { account with balance := account.balance.add (.finite a) }
          ∧ (deposit none s oid now accountNumber (.finite a) description).2.transactions
              = s.transactions ++
                  [{ _id := oid, from_ := none, to_ := some account._id, amount := .finite a,
                     type := .deposit, description := description, createdAt := now }])
      ∧ (∀ fromAccount toAccount, findOne s.accounts fromAccountNumber = some fromAccount →
          findOne s.accounts toAccountNumber = some toAccount →
          fromAccount.balance.lt (.finite a) = false →
          (transfer none s oid now fromAccountNumber toAccountNumber (.finite a)
              description).1.isError = false
            ∧ (transfer none s oid now fromAccountNumber toAccountNumber (.finite a)
                description).2.transactions
              = s.transactions ++
                  [{ _id := oid, from_ := some fromAccount._id, to_ := some toAccount._id,
                     amount := .finite a, type := .transfer, description := description,
                     createdAt := now }])
      ∧ ((deposit none s oid now accountNumber (.finite a) description).1.isError = true →
          (deposit none s oid now accountNumber (.finite a) description).2 = s)
      ∧ ((transfer none s oid now fromAccountNumber toAccountNumber (.finite a)
            description).1.isError = true →
          (transfer none s oid now fromAccountNumber toAccountNumber (.finite a)
            description).2 = s) := by
  have _ := hamount
  refine ⟨?_, ?_, ?_, ?_⟩
  · intro account hf
    rw [deposit_found s oid now accountNumber (.finite a) description account hf
      (JsNumber.add_finite_ne_nan (hvalid account (findOne_mem hf)) a)]
    refine ⟨rfl, ?_, rfl⟩
    simp [findOne_writeBalance, hf]
  · intro af at_ hf ht hge
    rw [transfer_found s oid now fromAccountNumber toAccountNumber (.finite a) description
      af at_ hf ht hge (JsNumber.sub_finite_ne_nan (hvalid af (findOne_mem hf)) a)
      (JsNumber.add_finite_ne_nan (hvalid at_ (findOne_mem ht)) a)]
    exact ⟨rfl, rfl⟩
  · cases hf : findOne s.accounts accountNumber with
    | none =>
      rw [deposit_notFound none s oid now accountNumber (.finite a) description hf]
      intro _; rfl
    | some account =>
      rw [deposit_found s oid now accountNumber (.finite a) description account hf
        (JsNumber.add_finite_ne_nan (hvalid account (findOne_mem hf)) a)]
      intro h; cases h
  · cases hf : findOne s.accounts fromAccountNumber with
    | none =>
      rw [transfer_notFound none s oid now fromAccountNumber toAccountNumber (.finite a)
        description (Or.inl hf)]
      intro _; rfl
    | some af =>
      cases ht : findOne s.accounts toAccountNumber with
      | none =>
        rw [transfer_notFound none s oid now fromAccountNumber toAccountNumber (.finite a)
          description (Or.inr ht)]
        intro _; rfl
      | some at_ =>
        cases hlt : af.balance.lt (.finite a) with
        | true =>
          rw [transfer_insufficient none s oid now fromAccountNumber toAccountNumber
            (.finite a) description af at_ hf ht hlt]
          intro _; rfl
        | false =>
          rw [transfer_found s oid now fromAccountNumber toAccountNumber (.finite a)
            description af at_ hf ht hlt
            (JsNumber.sub_finite_ne_nan (hvalid af (findOne_mem hf)) a)
            (JsNumber.add_finite_ne_nan (hvalid at_ (findOne_mem ht)) a)]
          intro h; cases h

/-- A deposit of -500 to A (1000) and a transfer of -500 from A to B (200) on the
scenario store both succeed and are logged with amount -500. -/
theorem nonpositive_amount_accepted_witness :
    ((deposit none storeAB 10 100 "SAV-A" (.finite (-500)) none).1.isError = false
        ∧ findOne (deposit none storeAB 10 100 "SAV-A" (.finite (-500)) none).2.accounts "SAV-A"
            = some ⟨1, "SAV-A", .finite 500, "savings"⟩
        ∧ (deposit none storeAB 10 100 "SAV-A" (.finite (-500)) none).2.transactions
            = [⟨10, none, some 1, .finite (-500), .deposit, none, 100⟩])
      ∧ ((transfer none storeAB 10 100 "SAV-A" "PER-B" (.finite (-500)) none).1.isError = false
        ∧ (transfer none storeAB 10 100 "SAV-A" "PER-B" (.finite (-500)) none).2.transactions
            = [⟨10, some 1, some 2, .finite (-500), .transfer, none, 100⟩]) := by
  have h := nonpositive_amount_accepted storeAB 10 100 "SAV-A" "SAV-A" "PER-B" (-500) none
    (by decide!) (by decide!)
  have h1 := h.1 ⟨1, "SAV-A", .finite 1000, "savings"⟩ (by decide!)
  have h2 := h.2.1 ⟨1, "SAV-A", .finite 1000, "savings"⟩ ⟨2, "PER-B", .finite 200, "person"⟩
    (by decide!) (by decide!) (by decide!)
  refine ⟨⟨h1.1, ?_, h1.2.2⟩, h2⟩
  rw [h1.2.1]
  decide!

/-! ## Persistence faults -/

/-- C8, as stated, fails: when saving the destination throws during
`transfer(A, B, 300)`, the handler reports an error but the debit of A stays
persisted: the store is not in its state of before the operation. -/
theorem fault_after_debit_not_rolled_back :
    ¬ ((transfer (some ⟨1, "write failed"⟩) storeAB 10 100 "SAV-A" "PER-B" (.finite 300)
          none).1.isError = true
        ∧ (transfer (some ⟨1, "write failed"⟩) storeAB 10 100 "SAV-A" "PER-B" (.finite 300)
          none).2 = storeAB)
      ∧ (transfer (some ⟨1, "write failed"⟩) storeAB 10 100 "SAV-A" "PER-B" (.finite 300)
          none).2.accounts
          = [⟨1, "SAV-A", .finite 700, "savings"⟩, ⟨2, "PER-B", .finite 200, "person"⟩] := by
  decide!

/-- C8, amended: when a persistence step throws, the handler reports an error
(status 400 with the message of the exception), performs no later step and undoes
no earlier write.  For a finite amount and stored balances that are not NaN.
Deposit to an existing account: a fault in the save of the account leaves the
store as it was; a fault in the save of the transaction leaves the new balance
written and the log as it was.  Transfer between existing accounts that passed
the funds check: a fault in the save of the source leaves the store as it was; a
fault in the save of the destination leaves the new source balance written, the
destination not written and the log as it was; a fault in the save of the
transaction leaves both new balances written and the log as it was. -/
theorem fault_keeps_earlier_writes (s : Store) (oid now : Nat) (message : String) :
    (∀ (accountNumber : String) (a : ℚ) (description : Option String) (account : Account),
        findOne s.accounts accountNumber = some account → account.balance ≠ .nan →
        deposit (some ⟨0, message⟩) s oid now accountNumber (.finite a) description
            = (.error 400 message, s)
          ∧ deposit (some ⟨1, message⟩) s oid now accountNumber (.finite a) description
            = (.error 400 message,
                { accounts :=
                    writeBalance s.accounts
                      { account with balance := account.balance.add (.finite a) },
                  transactions := s.transactions }))
      ∧ (∀ (fromAccountNumber toAccountNumber : String) (a : ℚ)
          (description : Option String) (fromAccount toAccount : Account),
        findOne s.accounts fromAccountNumber = some fromAccount →
        findOne s.accounts toAccountNumber = some toAccount →
        fromAccount.balance.lt (.finite a) = false →
        fromAccount.balance ≠ .nan → toAccount.balance ≠ .nan →
        transfer (some ⟨0, message⟩) s oid now fromAccountNumber toAccountNumber (.finite a)
            description = (.error 400 message, s)
          ∧ transfer (some ⟨1, message⟩) s oid now fromAccountNumber toAccountNumber
              (.finite a) description
            = (.error 400 message,
                { accounts :=
                    writeBalance s.accounts
                      { fromAccount with balance := fromAccount.balance.sub (.finite a) },
                  transactions := s.transactions })
          ∧ transfer (some ⟨2, message⟩) s oid now fromAccountNumber toAccountNumber
              (.finite a) description
            = (.error 400 message,
                { accounts :=
                    writeBalance
                      (writeBalance s.accounts
                        { fromAccount with balance := fromAccount.balance.sub (.finite a) })
                      { toAccount with balance := toAccount.balance.add (.finite a) },
                  transactions := s.transactions })) := by
  constructor
  · intro accountNumber a description account ha hbal
    have hsum := JsNumber.add_finite_ne_nan hbal a
    constructor
    · simp [deposit, ha, saveAccount_fault, hsum]
    · simp [deposit, ha, saveAccount_later_fault, saveTransaction_fault, hsum]
  · intro nf nt a description af at_ hf ht hge hfb htb
    have hfrom := JsNumber.sub_finite_ne_nan hfb a
    have hto := JsNumber.add_finite_ne_nan htb a
    refine ⟨?_, ?_, ?_⟩
    · simp [transfer, hf, ht, hge, saveAccount_fault, hfrom]
    · simp [transfer, hf, ht, hge, saveAccount_fault, saveAccount_later_fault, hfrom, hto]
    · simp [transfer, hf, ht, hge, saveAccount_later_fault, saveTransaction_fault, hfrom, hto]

/-- Faults at each persistence step of `deposit(A, 5000)` (more than any balance)
and of `transfer(A, B, 300)` on the scenario store (A 1000, B 200). -/
theorem fault_keeps_earlier_writes_witness :
    (deposit (some ⟨0, "write failed"⟩) storeAB 10 100 "SAV-A" (.finite 5000) none
        = (.error 400 "write failed", storeAB)
      ∧ deposit (some ⟨1, "write failed"⟩) storeAB 10 100 "SAV-A" (.finite 5000) none
        = (.error 400 "write failed",
            ⟨[⟨1, "SAV-A", .finite 6000, "savings"⟩, ⟨2, "PER-B", .finite 200, "person"⟩],
              []⟩))
      ∧ (transfer (some ⟨0, "write failed"⟩) storeAB 10 100 "SAV-A" "PER-B" (.finite 300) none
        = (.error 400 "write failed", storeAB)
      ∧ transfer (some ⟨1, "write failed"⟩) storeAB 10 100 "SAV-A" "PER-B" (.finite 300) none
        = (.error 400 "write failed",
            ⟨[⟨1, "SAV-A", .finite 700, "savings"⟩, ⟨2, "PER-B", .finite 200, "person"⟩], []⟩)
      ∧ transfer (some ⟨2, "write failed"⟩) storeAB 10 100 "SAV-A" "PER-B" (.finite 300) none
        = (.error 400 "write failed",
            ⟨[⟨1, "SAV-A", .finite 700, "savings"⟩, ⟨2, "PER-B", .finite 500, "person"⟩],
              []⟩)) := by
  have h := fault_keeps_earlier_writes storeAB 10 100 "write failed"
  have hd := h.1 "SAV-A" 5000 none ⟨1, "SAV-A", .finite 1000, "savings"⟩ (by decide!) (by simp)
  have ht := h.2 "SAV-A" "PER-B" 300 none ⟨1, "SAV-A", .finite 1000, "savings"⟩
    ⟨2, "PER-B", .finite 200, "person"⟩ (by decide!) (by decide!) (by decide!) (by simp)
    (by simp)
  refine ⟨⟨hd.1, ?_⟩, ht.1, ?_, ?_⟩
  · rw [hd.2]; decide!
  · rw [ht.2.1]; decide!
  · rw [ht.2.2]; decide!

/-! ## The history reporter -/

/-- Splitting a list by two exclusive tests and their joint failure rearranges it. -/
theorem filter_three_perm {α : Type} (p q : α → Bool)
    (h : ∀ x, p x = true → q x = false) (l : List α) :
    (l.filter p ++ l.filter q ++ l.filter (fun x => !p x && !q x)).Perm l := by
  induction l with
  | nil => simp
  | cons t l ih =>
    cases hp : p t <;> cases hq : q t
    · simp only [List.filter_cons, hp, hq, Bool.not_false, Bool.and_self, if_true,
        Bool.false_eq_true, if_false]
      exact List.perm_middle.trans (List.Perm.cons t ih)
    · simp only [List.filter_cons, hp, hq, Bool.not_false, Bool.not_true, Bool.and_false,
        if_true, Bool.false_eq_true, if_false, List.append_assoc, List.cons_append]
      exact List.perm_middle.trans (List.Perm.cons t (by simpa using ih))
    · simp only [List.filter_cons, hp, hq, Bool.not_false, Bool.not_true, Bool.false_and,
        if_true, Bool.false_eq_true, if_false, List.cons_append]
      exact List.Perm.cons t ih
    · rw [h t hp] at hq
      cases hq

/-- C9: the three buckets of the report - outgoing transfers, incoming
transactions and all remaining transactions - each keep the order of the full
list of formatted transactions (each is a sublist of it), are pairwise disjoint,
and together hold every formatted transaction exactly once (their concatenation
is a rearrangement of the full list); so `totalTransactions` is the sum of the
three bucket sizes. -/
theorem buckets_partition (formattedTransactions : List FormattedTransaction) :
    (outgoingTransfers formattedTransactions).Sublist formattedTransactions
      ∧ (incomingTransactions formattedTransactions).Sublist formattedTransactions
      ∧ (allOtherTransactions formattedTransactions).Sublist formattedTransactions
      ∧ (∀ t ∈ outgoingTransfers formattedTransactions,
          t ∉ incomingTransactions formattedTransactions)
      ∧ (∀ t ∈ outgoingTransfers formattedTransactions,
          t ∉ allOtherTransactions formattedTransactions)
      ∧ (∀ t ∈ incomingTransactions formattedTransactions,
          t ∉ allOtherTransactions formattedTransactions)
      ∧ (outgoingTransfers formattedTransactions ++ incomingTransactions formattedTransactions
          ++ allOtherTransactions formattedTransactions).Perm formattedTransactions
      ∧ (summarize formattedTransactions).totalTransactions
          = (outgoingTransfers formattedTransactions).length
            + (incomingTransactions formattedTransactions).length
            + (allOtherTransactions formattedTransactions).length := by
  have hperm : (outgoingTransfers formattedTransactions
      ++ incomingTransactions formattedTransactions
      ++ allOtherTransactions formattedTransactions).Perm formattedTransactions := by
    have hother : allOtherTransactions formattedTransactions
        = formattedTransactions.filter
            (fun t => !(decide (t.direction = .outgoing) && decide (t.type = .transfer))
              && !(decide (t.direction = .incoming))) := by
      unfold allOtherTransactions
      apply List.filter_congr
      intro t _
      simp
    rw [hother]
    exact filter_three_perm _ _
      (by
        intro t ht
        simp only [Bool.and_eq_true, decide_eq_true_eq] at ht
        simp [ht.1])
      formattedTransactions
  refine ⟨List.filter_sublist _, List.filter_sublist _, List.filter_sublist _, ?_, ?_, ?_,
    hperm, ?_⟩
  · intro t h1 h2
    simp only [outgoingTransfers, incomingTransactions, List.mem_filter, Bool.and_eq_true,
      decide_eq_true_eq] at h1 h2
    rw [h1.2.1] at h2
    exact absurd h2.2 (by decide)
  · intro t h1 h2
    simp only [outgoingTransfers, allOtherTransactions, List.mem_filter, Bool.and_eq_true,
      decide_eq_true_eq, Bool.not_eq_true', Bool.and_eq_false_imp] at h1 h2
    simp [h1.2.1, h1.2.2] at h2
  · intro t h1 h2
    simp only [incomingTransactions, allOtherTransactions, List.mem_filter, Bool.and_eq_true,
      decide_eq_true_eq] at h1 h2
    exact h2.2.2 h1.2
  · have := hperm.length_eq
    simp only [List.length_append] at this
    simp only [summarize]
    omega

/-- A populated reference passes the identity test against a stored account
exactly when the reference is the id of that account. -/
theorem refersTo_populate {accounts : List Account} {account : Account}
    (hmem : account ∈ accounts) (ref : Option Nat) :
    refersTo (populate accounts ref) account = decide (ref = some account._id) := by
  cases ref with
  | none => simp [populate, refersTo]
  | some i =>
    simp only [populate]
    cases hfind : accounts.find? (fun a => decide (a._id = i)) with
    | none =>
      have hne : ¬ account._id = i := by
        have := List.find?_eq_none.1 hfind account hmem
        simpa using this
      have hne2 : ¬ i = account._id := fun h => hne h.symm
      simp [refersTo, hne2]
    | some a =>
      have hai : a._id = i := by
        have := List.find?_some hfind
        simpa using this
      simp [refersTo, hai]

/-- The direction given to a transaction in the history of a stored account:
incoming when `to` is the account, else outgoing when `from` is the account. -/
theorem format_direction {accounts : List Account} {account : Account}
    (hmem : account ∈ accounts) (t : Transaction) :
    (format accounts account t).direction
      = if t.to_ = some account._id then .incoming
        else if t.from_ = some account._id then .outgoing else .unknown := by
  simp [format, refersTo_populate hmem]

/-- The incoming bucket of a formatted list comes from the transactions whose
`to` is the account. -/
theorem incomingTransactions_map {accounts : List Account} {account : Account}
    (hmem : account ∈ accounts) (l : List Transaction) :
    incomingTransactions (l.map (format accounts account))
      = (l.filter (fun t => decide (t.to_ = some account._id))).map
          (format accounts account) := by
  unfold incomingTransactions
  rw [List.filter_map]
  congr 1
  apply List.filter_congr
  intro t _
  simp only [Function.comp, format_direction hmem]
  by_cases h1 : t.to_ = some account._id
  · simp [h1]
  · by_cases h2 : t.from_ = some account._id <;> simp [h1, h2]

/-- The outgoing bucket of a formatted list comes from the transfers whose
`from` is the account and whose `to` is not. -/
theorem outgoingTransfers_map {accounts : List Account} {account : Account}
    (hmem : account ∈ accounts) (l : List Transaction) :
    outgoingTransfers (l.map (format accounts account))
      = (l.filter (fun t => decide (t.type = .transfer ∧ t.from_ = some account._id
            ∧ t.to_ ≠ some account._id))).map (format accounts account) := by
  unfold outgoingTransfers
  rw [List.filter_map]
  congr 1
  apply List.filter_congr
  intro t _
  simp only [Function.comp, format_direction hmem]
  have hty : (format accounts account t).type = t.type := rfl
  rw [hty]
  by_cases h1 : t.to_ = some account._id
  · simp [h1]
  · by_cases h2 : t.from_ = some account._id <;> by_cases h3 : t.type = .transfer <;>
      simp [h1, h2, h3]

theorem find_perm (transactions : List Transaction) (id : Nat) :
    (find transactions id).Perm
      (transactions.filter (fun t => decide (t.from_ = some id ∨ t.to_ = some id))) :=
  List.perm_insertionSort _ _

/-- Filtering the fetched list by a test that implies the query's filter is, up
to order, filtering the log. -/
theorem filter_find_perm (transactions : List Transaction) (id : Nat)
    (p : Transaction → Bool)
    (hp : ∀ t, p t = true → (t.from_ = some id ∨ t.to_ = some id)) :
    ((find transactions id).filter p).Perm (transactions.filter p) := by
  have h1 := (find_perm transactions id).filter p
  refine h1.trans ?_
  rw [List.filter_filter]
  have : (transactions.filter
      (fun t => p t && decide (t.from_ = some id ∨ t.to_ = some id)))
      = transactions.filter p := by
    apply List.filter_congr
    intro t _
    cases h : p t
    · simp
    · simpa using hp t h
  rw [this]

/-- C10, at a logged self-transfer: after `transfer(A, A, 50)` the log holds one
transfer whose `from` is A, and the history of A labels it "Transferred ... to"
in `transferSummary`, yet gives it direction incoming, so the summary reports 0
outgoing transfers and 0 sent. -/
theorem history_self_transfer_not_outgoing :
    storeSelf.transactions = [⟨10, some 1, some 1, .finite 50, .transfer, none, 100⟩]
      ∧ (storeSelf.transactions.filter
          (fun t => decide (t.type = .transfer ∧ t.from_ = some 1))).length = 1
      ∧ transactions storeSelf "SAV-A"
        = .ok { account := ⟨"SAV-A", "savings", .finite 1050⟩,
                summary := ⟨1, 0, 1, .finite 0, .finite 50⟩,
                outgoingTransfers := [],
                incomingTransactions :=
                  [⟨10, .transfer, .finite 50, none, 100, .incoming,
                    some (.transferred (.finite 50) "SAV-A"), some "SAV-A", some "SAV-A",
                    "completed"⟩],
                allTransactions :=
                  [⟨10, .transfer, .finite 50, none, 100, .incoming,
                    some (.transferred (.finite 50) "SAV-A"), some "SAV-A", some "SAV-A",
                    "completed"⟩] } := by
  decide!

/-- The counts of the history summary of an existing account: `totalTransactions`
counts the logged transactions whose `from` or `to` is the account,
`incomingTransactions` those whose `to` is the account, and `outgoingTransfers`
the transfers whose `from` is the account and whose `to` is not. -/
theorem history_counts (s : Store) (accountNumber : String) (account : Account)
    (hf : findOne s.accounts accountNumber = some account) :
    ∃ body, transactions s accountNumber = .ok body
      ∧ body.summary.totalTransactions
          = (s.transactions.filter
              (fun t => decide (t.from_ = some account._id ∨ t.to_ = some account._id))).length
      ∧ body.summary.outgoingTransfers
          = (s.transactions.filter
              (fun t => decide (t.type = .transfer ∧ t.from_ = some account._id
                ∧ t.to_ ≠ some account._id))).length
      ∧ body.summary.incomingTransactions
          = (s.transactions.filter (fun t => decide (t.to_ = some account._id))).length := by
  have hmem := findOne_mem hf
  have hout := filter_find_perm s.transactions account._id
    (fun t => decide (t.type = .transfer ∧ t.from_ = some account._id
      ∧ t.to_ ≠ some account._id))
    (by intro t ht; simp only [decide_eq_true_eq] at ht; exact Or.inl ht.2.1)
  have hin := filter_find_perm s.transactions account._id
    (fun t => decide (t.to_ = some account._id))
    (by intro t ht; simp only [decide_eq_true_eq] at ht; exact Or.inr ht)
  have hresp : transactions s accountNumber
      = .ok { account :=
                { accountNumber := account.accountNumber, accountType := account.type,
                  currentBalance := account.balance },
              summary := summarize (formattedTransactionsOf s account),
              outgoingTransfers := outgoingTransfers (formattedTransactionsOf s account),
              incomingTransactions := incomingTransactions (formattedTransactionsOf s account),
              allTransactions := formattedTransactionsOf s account } := by
    simp only [transactions, hf]
  refine ⟨_, hresp, ?_, ?_, ?_⟩
  · simp only [summarize, formattedTransactionsOf, List.length_map]
    exact (find_perm s.transactions account._id).length_eq
  · simp only [summarize, formattedTransactionsOf, outgoingTransfers_map hmem,
      List.length_map]
    exact hout.length_eq
  · simp only [summarize, formattedTransactionsOf, incomingTransactions_map hmem,
      List.length_map]
    exact hin.length_eq

/-- Scenario 5: after scenarios 1 to 3 the history of A reports 2 transactions, 1
outgoing transfer with sum 300 and 1 incoming transaction with sum 500. -/
theorem history_scenario :
    transactions storeScenario "SAV-A"
      = .ok { account := ⟨"SAV-A", "savings", .finite 1200⟩,
              summary := ⟨2, 1, 1, .finite 300, .finite 500⟩,
              outgoingTransfers :=
                [⟨11, .transfer, .finite 300, none, 101, .outgoing,
                  some (.transferred (.finite 300) "PER-B"), some "SAV-A", some "PER-B",
                  "completed"⟩],
              incomingTransactions :=
                [⟨10, .deposit, .finite 500, none, 100, .incoming,
                  some (.depositOf (.finite 500)), none, some "SAV-A", "completed"⟩],
              allTransactions :=
                [⟨11, .transfer, .finite 300, none, 101, .outgoing,
                  some (.transferred (.finite 300) "PER-B"), some "SAV-A", some "PER-B",
                  "completed"⟩,
                 ⟨10, .deposit, .finite 500, none, 100, .incoming,
                  some (.depositOf (.finite 500)), none, some "SAV-A", "completed"⟩] } := by
  decide!

/-! ## The replay invariant -/

/-- C6, at a self-transfer: from the store with all balances zero and an empty
log, after `deposit(A, 100)` and `transfer(A, A, 50)` the stored balance of A is
150 while replaying the log for A from zero gives 100. -/
theorem replay_differs_after_self_transfer :
    (∀ a ∈ storeZero.accounts, a.balance = .finite 0)
      ∧ storeZero.transactions = []
      ∧ balanceOf (run storeZero [.deposit 10 100 "SAV-A" (.finite 100) none,
          .transfer 11 101 "SAV-A" "SAV-A" (.finite 50) none]).accounts 1
          = some (.finite 150)
      ∧ replay (run storeZero [.deposit 10 100 "SAV-A" (.finite 100) none,
          .transfer 11 101 "SAV-A" "SAV-A" (.finite 50) none]).transactions 1 = some 100 := by
  decide!

end Bank
